import Mathlib

/-!
Verification of the `minio/ming` gateway core against its specification.

The development shallowly embeds the repository's Go code:

* `cmd/gateway-main.go` — the `GatewayLocker.Walk` decorator and its
  paginated fallback walk engine, `ParseGatewayEndpoint`, and the
  `StartGateway` bootstrap sequence (as an event trace);
* `cmd/gateway-common.go` — `parseGatewaySSE`;
* `cmd/main.go` — `findClosestCommands` and the command-not-found handler.

Go strings are modelled as Lean `String`s and Go slices as `List`s.  Go
errors are modelled by the inductive `GoErr`; the `minio.NotImplemented`
type assertion in the source becomes a match on its constructor.  The
goroutine spawned by the fallback walk is modelled as a function from the
backend's paged-listing behaviour to the ordered trace of values the
goroutine sends on the results channel (the "sink") and the errors it
logs; `defer close(results)` becomes the unconditional trailing `close`
event.  A Go `context` is modelled by the one observable the code uses:
whether `<-ctx.Done()` is ready at a given send attempt, encoded as an
optional quota `some k` meaning "cancellation becomes observable once `k`
items have been pushed" (`none` = never cancelled).  The unbounded `for`
loop is given fuel; every theorem supplies fuel at least the number of
pages its backend serves, so the artificial out-of-fuel branch is never
taken under the theorems' hypotheses.
-/

namespace Ming

/-- Object metadata streamed by a walk.  `minio.ObjectInfo` carries many
more fields; the walk engine treats values abstractly, so only
identifying fields are modelled. -/
structure ObjectInfo where
  bucket : String
  name : String
deriving DecidableEq, Repr

/-- Go errors as the walk decorator distinguishes them: the
`minio.NotImplemented` capability-absence signal versus every other
error (`err.(minio.NotImplemented)` type assertion at
gateway-main.go:83). -/
inductive GoErr where
  | notImplemented
  | errOther (msg : String)
deriving DecidableEq, Repr

/-- One page returned by `ObjectLayer.ListObjects`
(`minio.ListObjectsInfo`): the objects, the resume marker, and whether
further pages exist. -/
structure ListObjectsInfo where
  Objects : List ObjectInfo
  NextMarker : String
  IsTruncated : Bool
deriving DecidableEq, Repr

/-- The backend's paged lister as the walk loop uses it: bucket, prefix
and delimiter are fixed for the whole walk, so the behaviour is a
function of the marker and of `maxKeys` (the loop always passes `0`,
gateway-main.go:61). -/
abbrev Lister := String → Nat → Except GoErr ListObjectsInfo

/-- What the consumer observes on the results channel. -/
inductive SinkEvent where
  | push (o : ObjectInfo)
  | close
deriving DecidableEq, Repr

/-- Observable outcome of one run of the fallback walk goroutine:
the ordered channel trace and the errors passed to `logger.LogIf`. -/
structure WalkRun where
  sink : List SinkEvent
  logged : List GoErr
deriving DecidableEq, Repr

/-- The inner `for _, obj := range loi.Objects` send loop
(gateway-main.go:67-73): each send is a `select` between delivering the
object and observing `<-ctx.Done()`.  `pushed` counts items delivered so
far in the whole walk; with quota `some k`, the send attempt made after
`k` deliveries observes cancellation and the goroutine returns.
Returns (objects delivered by this page, updated count, cancelled?). -/
def pushLoop (cancel : Option Nat) : List ObjectInfo → Nat → List ObjectInfo × Nat × Bool
  | [], pushed => ([], pushed, false)
  | o :: rest, pushed =>
    match cancel with
    | some k =>
      if k ≤ pushed then ([], pushed, true)
      else
        let r := pushLoop (some k) rest (pushed + 1)
        (o :: r.1, r.2)
    | none =>
      let r := pushLoop none rest (pushed + 1)
      (o :: r.1, r.2)

/-- The goroutine's `for` loop (gateway-main.go:59-77): call
`ListObjects(ctx, bucket, prefix, marker, "", 0)`; on error log it and
return; otherwise advance the marker, push the page's objects (returning
early if cancellation is observed mid-push), and continue while
`IsTruncated`.  Returns (objects delivered, errors logged). -/
def walkLoop (lo : Lister) (cancel : Option Nat) : Nat → String → Nat → List ObjectInfo × List GoErr
  | 0, _, _ => ([], [])
  | fuel + 1, marker, pushed =>
    match lo marker 0 with
    | .error e => ([], [e])
    | .ok loi =>
      let r := pushLoop cancel loi.Objects pushed
      if r.2.2 then (r.1, [])
      else if loi.IsTruncated then
        let rec' := walkLoop lo cancel fuel loi.NextMarker r.2.1
        (r.1 ++ rec'.1, rec'.2)
      else (r.1, [])

/-- The whole fallback walk goroutine (gateway-main.go:53-78): the loop
starting from the empty marker, wrapped by `defer close(results)`, which
closes the sink on every exit path. -/
def gatewayWalk (lo : Lister) (cancel : Option Nat) (fuel : Nat) : WalkRun :=
  let r := walkLoop lo cancel fuel "" 0
  { sink := r.1.map SinkEvent.push ++ [SinkEvent.close], logged := r.2 }

/-- `GatewayLocker.Walk` (gateway-main.go:51-90): invoke the inner
layer's native `Walk`; a `minio.NotImplemented` error triggers the
fallback goroutine (which returns `nil` to the caller); any other error
is returned unchanged; on native success nothing further is done.
`native` is the result of the inner native walk; the return value pairs
the error reported to the caller with the fallback run, if one was
started. -/
def GatewayLockerWalk (native : Option GoErr) (lo : Lister) (cancel : Option Nat)
    (fuel : Nat) : Option GoErr × Option WalkRun :=
  match native with
  | none => (none, none)
  | some GoErr.notImplemented => (none, some (gatewayWalk lo cancel fuel))
  | some e => (some e, none)

/-- `lo` serves exactly this page sequence when driven from marker `m`
the way the walk loop drives it: each call uses `maxKeys = 0`, every
page but the last has `IsTruncated = true`, the last has `false`, and
each next call uses the previous page's `NextMarker`. -/
inductive ServesPages (lo : Lister) : String → List ListObjectsInfo → Prop
  | last : ∀ m p, lo m 0 = .ok p → p.IsTruncated = false → ServesPages lo m [p]
  | step : ∀ m p rest, lo m 0 = .ok p → p.IsTruncated = true →
      ServesPages lo p.NextMarker rest → ServesPages lo m (p :: rest)

/-- `lo` serves these truncated pages from marker `m` and then fails
with error `e` on the following call. -/
inductive ServesThenErr (lo : Lister) : String → List ListObjectsInfo → GoErr → Prop
  | here : ∀ m e, lo m 0 = .error e → ServesThenErr lo m [] e
  | step : ∀ m p rest e, lo m 0 = .ok p → p.IsTruncated = true →
      ServesThenErr lo p.NextMarker rest e → ServesThenErr lo m (p :: rest) e

/-- Concatenation of all pages' objects, page order then within-page
order. -/
def allObjects (pages : List ListObjectsInfo) : List ObjectInfo :=
  (pages.map ListObjectsInfo.Objects).flatten

/- Concrete two-page backend used by the witnesses. -/

def demoPage1 : ListObjectsInfo :=
  { Objects := [⟨"b", "o1"⟩, ⟨"b", "o2"⟩], NextMarker := "m1", IsTruncated := true }

def demoPage2 : ListObjectsInfo :=
  { Objects := [⟨"b", "o3"⟩], NextMarker := "", IsTruncated := false }

def demoLister : Lister := fun m _ =>
  if m = "" then .ok demoPage1
  else if m = "m1" then .ok demoPage2
  else .error (.errOther "unknown marker")

/-- Backend that serves one truncated page and then fails. -/
def demoErrLister : Lister := fun m _ =>
  if m = "" then .ok demoPage1
  else .error (.errOther "backend down")

/-! ### Endpoint resolver (`ParseGatewayEndpoint`, gateway-main.go:105-125) -/

/-- Go's `strings.Split` with a non-empty separator, on character
lists.  `cur` accumulates the current segment reversed; `skip` counts
separator characters still to be consumed after a match. -/
def goSplitAux (sep : List Char) : List Char → List Char → Nat → List (List Char)
  | [], cur, _ => [cur.reverse]
  | _ :: cs, cur, skip + 1 => goSplitAux sep cs cur skip
  | c :: cs, cur, 0 =>
    if sep.isPrefixOf (c :: cs) then
      cur.reverse :: goSplitAux sep cs [] (sep.length - 1)
    else
      goSplitAux sep cs (c :: cur) 0

/-- Go's `strings.Split(s, sep)` for non-empty `sep` (the source only
splits on `"://"` and `";"`). -/
def goSplit (s sep : String) : List String :=
  (goSplitAux sep.data s.data [] 0).map String.mk

/-- The two `url.URL` fields `ParseGatewayEndpoint` reads. -/
structure GoURL where
  Scheme : String
  Host : String
deriving DecidableEq, Repr

/-- `net/url.Parse` as the external collaborator it is: a function from
the raw string to either a parse error or a URL. -/
abbrev URLParser := String → Except String GoURL

/-- `ParseGatewayEndpoint` (gateway-main.go:105-125): if no `"://"`
separator occurs, prepend `https://`; parse; map scheme `http`/`https`
to `(Host, secure)` and fail on any other scheme naming it; propagate
parse errors. -/
def ParseGatewayEndpoint (urlParse : URLParser) (arg : String) :
    Except String (String × Bool) :=
  let schemeSpecified := (goSplit arg "://").length > 1
  let arg2 := if schemeSpecified then arg else "https://" ++ arg
  match urlParse arg2 with
  | .error e => .error e
  | .ok u =>
    if u.Scheme = "http" then .ok (u.Host, false)
    else if u.Scheme = "https" then .ok (u.Host, true)
    else .error ("Unrecognized scheme " ++ u.Scheme)

/-- Modelled from the spec: Go's `net/url.Parse` is an external stdlib
collaborator not under `src/`.  This model covers the
`scheme://host[/...]` inputs the claims exercise: scheme before the
first `"://"` (lower-cased, alphabetic), host up to the next `/`,
anything else a parse error.  It instantiates the parser-parameterized
theorems at concrete inputs. -/
def urlParseModel (s : String) : Except String GoURL :=
  match goSplit s "://" with
  | [sch, rest] =>
    if sch ≠ "" ∧ sch.data.all Char.isAlpha then
      .ok { Scheme := String.mk (sch.data.map Char.toLower),
            Host := (goSplit rest "/").headD "" }
    else .error ("parse " ++ s)
  | _ => .error ("parse " ++ s)

/-! ### Gateway SSE parsing (`parseGatewaySSE`, gateway-common.go:29-47) -/

/-- Modelled from the spec: the token constant `minio.GatewaySSES3`
lives in the external minio library, not under `src/`; the spec's
closed token set fixes it as `S3`. -/
def GatewaySSES3 : String := "S3"

/-- Modelled from the spec: the token constant `minio.GatewaySSEC`
lives in the external minio library, not under `src/`; the spec's
closed token set fixes it as `SSE-C`. -/
def GatewaySSEC : String := "SSE-C"

/-- Go's `strings.ToUpper` on the ASCII tokens the parser compares. -/
def goToUpper (s : String) : String :=
  String.mk (s.data.map Char.toUpper)

/-- The `for _, val := range l` loop of `parseGatewaySSE`
(gateway-common.go:32-45): skip empty tokens, accumulate the recognized
upper-cased tokens, fail on the first unrecognized one. -/
def parseGatewaySSEGo : List String → List String → Except String (List String)
  | [], acc => .ok acc
  | v :: rest, acc =>
    let u := goToUpper v
    if u = "" then parseGatewaySSEGo rest acc
    else if u = GatewaySSES3 ∨ u = GatewaySSEC then parseGatewaySSEGo rest (acc ++ [u])
    else .error ("gateway SSE cannot be (" ++ u ++ ") ")

/-- `parseGatewaySSE` (gateway-common.go:29-47): split on `;` and fold
the token loop from an empty (nil) accumulator. -/
def parseGatewaySSE (s : String) : Except String (List String) :=
  parseGatewaySSEGo (goSplit s ";") []

/-! ### Bootstrap tail of `StartGateway` (gateway-main.go:284-373)

The orchestration from the HTTP listener start onward is modelled as
the trace of bootstrap events the process performs, as a function of
the outcomes of its external collaborators.  `logger.FatalIf`/
`logger.Fatal` terminate the process, so a fatal error ends the
trace at `fatalExit`. -/

inductive BootEvent where
  | startHTTP          -- `go httpServer.Start()` (line 284)
  | installHTTPServer  -- `minio.GlobalHTTPServer = httpServer` (line 289)
  | shutdownHTTP       -- `minio.GlobalHTTPServer.Shutdown()` (line 296)
  | fatalExit          -- `logger.FatalIf` / `logger.Fatal` with non-nil error
  | decorateLayer      -- `NewGatewayLayerWithLocker` (line 299)
  | newAllSubsystems   -- `minio.NewAllSubsystems()` (line 302)
  | installObjectLayer -- `minio.GlobalObjectAPI = newObject` (line 306)
  | listBucketsNAS     -- `newObject.ListBuckets` for NAS (line 310)
  | initNotification   -- `GlobalNotificationSys.Init` (line 314)
  | migrateEncryptedIAM -- `MigrateIAMConfigsEtcdToEncrypted` (line 321)
  | initIAMStore       -- `GlobalIAMSys.InitStore` (line 327)
  | startAsyncIAMInit  -- `go GlobalIAMSys.Init` (line 329)
  | initDiskCache      -- `NewServerCacheObjects` (line 335)
  | listBucketsDNS     -- `newObject.ListBuckets` for DNS federation (line 345)
  | initDNSFederation  -- `minio.InitFederatorBackend` (line 349)
  | verifyFeatures     -- `VerifyObjectLayerFeatures` (line 355)
  | printBanner        -- startup message block (lines 358-370)
  | awaitSignal        -- `minio.HandleSignals()` (line 372)
deriving DecidableEq, Repr

/-- Outcomes of the external collaborators `StartGateway` consults
after starting the HTTP listener. -/
structure BootEnv where
  ctorErr : Option GoErr     -- `gw.NewGatewayLayer` (line 294)
  isNAS : Bool               -- `gatewayName == NASBackendGateway` (line 309)
  nasListErr : Option GoErr  -- NAS `ListBuckets` (line 310)
  notifErr : Option GoErr    -- `GlobalNotificationSys.Init` (line 314)
  etcdConfigured : Bool      -- `minio.GlobalEtcdClient != nil` (lines 251, 317)
  migrateErr : Option GoErr  -- `MigrateIAMConfigsEtcdToEncrypted` (line 321)
  cacheEnabled : Bool        -- `minio.GlobalCacheConfig.Enabled` (line 332)
  cacheErr : Option GoErr    -- `NewServerCacheObjects` (line 335)
  dnsConfigured : Bool       -- `minio.GlobalDNSConfig != nil` (line 344)
  dnsListErr : Option GoErr  -- DNS `ListBuckets` (line 345)

/-- Lines 309-315: NAS-only notification wiring, fatal on either error. -/
def nasPhase (env : BootEnv) (rest : List BootEvent) : List BootEvent :=
  if env.isNAS then
    BootEvent.listBucketsNAS ::
      match env.nasListErr with
      | some _ => [BootEvent.fatalExit]
      | none =>
        BootEvent.initNotification ::
          match env.notifErr with
          | some _ => [BootEvent.fatalExit]
          | none => rest
  else rest

/-- Lines 317-323: encrypted-backend migration, only with etcd, fatal
on error. -/
def migratePhase (env : BootEnv) (rest : List BootEvent) : List BootEvent :=
  if env.etcdConfigured then
    BootEvent.migrateEncryptedIAM ::
      match env.migrateErr with
      | some _ => [BootEvent.fatalExit]
      | none => rest
  else rest

/-- Lines 325-330: IAM store init and async IAM init, gated on
`enableIAMOps` which line 251 sets iff etcd is configured. -/
def iamPhase (env : BootEnv) (rest : List BootEvent) : List BootEvent :=
  if env.etcdConfigured then
    BootEvent.initIAMStore :: BootEvent.startAsyncIAMInit :: rest
  else rest

/-- Lines 332-341: disk cache init, fatal on error. -/
def cachePhase (env : BootEnv) (rest : List BootEvent) : List BootEvent :=
  if env.cacheEnabled then
    BootEvent.initDiskCache ::
      match env.cacheErr with
      | some _ => [BootEvent.fatalExit]
      | none => rest
  else rest

/-- Lines 344-350: DNS federation population, fatal on list error. -/
def dnsPhase (env : BootEnv) (rest : List BootEvent) : List BootEvent :=
  if env.dnsConfigured then
    BootEvent.listBucketsDNS ::
      match env.dnsListErr with
      | some _ => [BootEvent.fatalExit]
      | none => BootEvent.initDNSFederation :: rest
  else rest

/-- The `StartGateway` tail from the HTTP listener start (line 284) to
`HandleSignals` (line 372): on backend-constructor failure the server
is shut down and the process exits; otherwise the layer is decorated
and installed and the dependent subsystems run in source order. -/
def startGatewayTail (env : BootEnv) : List BootEvent :=
  BootEvent.startHTTP :: BootEvent.installHTTPServer ::
    match env.ctorErr with
    | some _ => [BootEvent.shutdownHTTP, BootEvent.fatalExit]
    | none =>
      BootEvent.decorateLayer :: BootEvent.newAllSubsystems ::
        BootEvent.installObjectLayer ::
        nasPhase env (migratePhase env (iamPhase env (cachePhase env
          (dnsPhase env [BootEvent.verifyFeatures, BootEvent.printBanner,
            BootEvent.awaitSignal]))))

/-! ### Command suggestions (`findClosestCommands`, main.go:89-108) -/

/-- Go's byte-wise string `<`, on character lists (the compared command
names are ASCII, where byte order and code-point order agree). -/
def goLtList : List Char → List Char → Bool
  | [], [] => false
  | [], _ :: _ => true
  | _ :: _, [] => false
  | a :: as, b :: bs => if a < b then true else if b < a then false else goLtList as bs

/-- Insertion step of the `sort.Strings` model. -/
def insertSorted (v : String) : List String → List String
  | [] => [v]
  | x :: xs => if goLtList v.data x.data then v :: x :: xs else x :: insertSorted v xs

/-- `sort.Strings` (external stdlib collaborator): ascending insertion
sort. -/
def sortStrings (l : List String) : List String :=
  l.foldr insertSorted []

/-- The binary-search loop of Go's `sort.Search`, specialized by
`sort.SearchStrings` to the predicate `a[h] >= v`.  The loop halves
`j - i` each iteration; the fuel argument (seeded with `a.length`,
which bounds the iteration count) makes the recursion structural. -/
def sortSearchGo (a : List String) (v : String) : Nat → Nat → Nat → Nat
  | 0, i, _ => i
  | fuel + 1, i, j =>
    if i < j then
      let m := (i + j) / 2
      if goLtList (a.getD m "").data v.data then sortSearchGo a v fuel (m + 1) j
      else sortSearchGo a v fuel i m
    else i

/-- `sort.SearchStrings(a, v)` (external stdlib collaborator). -/
def sortSearch (a : List String) (v : String) : Nat :=
  sortSearchGo a v a.length 0 a.length

/-- Modelled from the spec: `words.DamerauLevenshteinDistance` lives in
the external minio library (`pkg/words`), not under `src/`; the spec
only calls it the fuzzy edit distance.  This is the standard restricted
Damerau-Levenshtein (optimal string alignment) recurrence the library's
dynamic program computes: deletion, insertion, substitution, and
adjacent transposition. -/
def dlDistFuel : Nat → List Char → List Char → Nat
  | _, [], b => b.length
  | _, a, [] => a.length
  | 0, a, b => a.length + b.length
  | fuel + 1, x :: x2 :: xs, y :: y2 :: ys =>
    let cost := if x = y then 0 else 1
    let base := min (dlDistFuel fuel (x2 :: xs) (y :: y2 :: ys) + 1)
      (min (dlDistFuel fuel (x :: x2 :: xs) (y2 :: ys) + 1)
        (dlDistFuel fuel (x2 :: xs) (y2 :: ys) + cost))
    if x = y2 ∧ x2 = y then min base (dlDistFuel fuel xs ys + cost) else base
  | fuel + 1, x :: xs, y :: ys =>
    let cost := if x = y then 0 else 1
    min (dlDistFuel fuel xs (y :: ys) + 1)
      (min (dlDistFuel fuel (x :: xs) ys + 1) (dlDistFuel fuel xs ys + cost))

/-- The distance itself: every recursive step of the recurrence drops
the combined length by at least one, so `a.length + b.length` fuel is
always enough and the fuel-exhaustion row is never reached. -/
def dlDist (a b : List Char) : Nat :=
  dlDistFuel (a.length + b.length) a b

/-- `findClosestCommands` (main.go:89-108): sorted prefix matches from
the command trie, then every further registered command whose
Damerau-Levenshtein distance is below 2, subject to the
`sort.SearchStrings` skip test against the growing list.  The trie's
`Walk` iterates a Go map, whose order is unspecified; it is modelled
here as registration order. -/
def findClosestCommands (command : String) (cmds : List String) : List String :=
  let closest := sortStrings (cmds.filter (fun c => command.data.isPrefixOf c.data))
  cmds.foldl
    (fun acc value =>
      if sortSearch acc value < acc.length then acc
      else if dlDist command.data value.data < 2 then acc ++ [value]
      else acc)
    closest

/-- The `CommandNotFound` handler (main.go:125-137): report the closest
matches to the typed command, then `os.Exit(1)`.  Returns the printed
suggestions and the exit status. -/
def commandNotFound (cmds : List String) (command : String) : List String × Nat :=
  (findClosestCommands command cmds, 1)

/-- Bootstrap environment with a failing backend constructor, used by
the witnesses. -/
def demoFailEnv : BootEnv :=
  { ctorErr := some (GoErr.errOther "ctor failed"), isNAS := false,
    nasListErr := none, notifErr := none, etcdConfigured := true,
    migrateErr := none, cacheEnabled := false, cacheErr := none,
    dnsConfigured := false, dnsListErr := none }

/-- Bootstrap environment that reaches the IAM phase with etcd
configured, used by the witnesses. -/
def demoEtcdEnv : BootEnv :=
  { ctorErr := none, isNAS := false, nasListErr := none, notifErr := none,
    etcdConfigured := true, migrateErr := none, cacheEnabled := false,
    cacheErr := none, dnsConfigured := false, dnsListErr := none }

/-! ### Helper lemmas about the walk loop -/

theorem allObjects_nil : allObjects [] = [] := by
  simp [allObjects]

theorem allObjects_cons (p : ListObjectsInfo) (rest : List ListObjectsInfo) :
    allObjects (p :: rest) = p.Objects ++ allObjects rest := by
  simp [allObjects]

/-- With no cancellation, the send loop delivers the whole page. -/
theorem pushLoop_none (objs : List ObjectInfo) : ∀ pushed,
    pushLoop none objs pushed = (objs, pushed + objs.length, false) := by
  induction objs with
  | nil => intro pushed; simp [pushLoop]
  | cons o rest ih =>
    intro pushed
    simp only [pushLoop, ih (pushed + 1)]
    simp
    omega

/-- With quota `k`, the send loop delivers exactly the first `k - pushed`
items of the page and observes cancellation iff the page holds more. -/
theorem pushLoop_some (k : Nat) (objs : List ObjectInfo) : ∀ pushed,
    pushLoop (some k) objs pushed =
      (objs.take (k - pushed), pushed + min objs.length (k - pushed),
        decide (k - pushed < objs.length)) := by
  induction objs with
  | nil => intro pushed; simp [pushLoop]
  | cons o rest ih =>
    intro pushed
    by_cases h : k ≤ pushed
    · have hk : k - pushed = 0 := by omega
      simp [pushLoop, h, hk]
    · obtain ⟨d, hd⟩ : ∃ d, k - pushed = d + 1 := ⟨k - pushed - 1, by omega⟩
      have hd2 : k - (pushed + 1) = d := by omega
      simp only [pushLoop, if_neg h, ih (pushed + 1), hd2, hd, List.take_succ_cons,
        List.length_cons, Prod.mk.injEq, true_and]
      refine ⟨by omega, ?_⟩
      rw [decide_eq_decide]
      omega

/-- Uncancelled run over a backend serving `pages`: every object is
delivered in order and nothing is logged. -/
theorem walkLoop_serves (lo : Lister) {m : String} {pages : List ListObjectsInfo}
    (h : ServesPages lo m pages) : ∀ fuel pushed, pages.length ≤ fuel →
      walkLoop lo none fuel m pushed = (allObjects pages, []) := by
  induction h with
  | last m p hp htr =>
    intro fuel pushed hf
    cases fuel with
    | zero => simp at hf
    | succ fuel => simp [walkLoop, hp, pushLoop_none, htr, allObjects]
  | step m p rest hp htr _ ih =>
    intro fuel pushed hf
    cases fuel with
    | zero => simp at hf
    | succ fuel =>
      have hrest : rest.length ≤ fuel := by simp at hf; omega
      simp [walkLoop, hp, pushLoop_none, htr, ih fuel _ hrest, allObjects]

/-- Run over a backend that errors after `pages` truncated pages: the
objects seen so far are delivered and the error is logged. -/
theorem walkLoop_errs (lo : Lister) {m : String} {pages : List ListObjectsInfo}
    {e : GoErr} (h : ServesThenErr lo m pages e) : ∀ fuel pushed, pages.length < fuel →
      walkLoop lo none fuel m pushed = (allObjects pages, [e]) := by
  induction h with
  | here m e hp =>
    intro fuel pushed hf
    cases fuel with
    | zero => simp at hf
    | succ fuel => simp [walkLoop, hp, allObjects]
  | step m p rest e hp htr _ ih =>
    intro fuel pushed hf
    cases fuel with
    | zero => simp at hf
    | succ fuel =>
      have hrest : rest.length < fuel := by simp at hf; omega
      simp [walkLoop, hp, pushLoop_none, htr, ih fuel _ hrest, allObjects]

/-- Cancelled run: when the quota runs out before the backend's total
object count, exactly the first `k - pushed` remaining objects are
delivered and nothing is logged. -/
theorem walkLoop_cancel (lo : Lister) {m : String} {pages : List ListObjectsInfo}
    (h : ServesPages lo m pages) : ∀ fuel pushed k, pages.length ≤ fuel →
      k - pushed < (allObjects pages).length →
      walkLoop lo (some k) fuel m pushed = ((allObjects pages).take (k - pushed), []) := by
  induction h with
  | last m p hp htr =>
    intro fuel pushed k hf hk
    cases fuel with
    | zero => simp at hf
    | succ fuel =>
      rw [allObjects_cons, allObjects_nil, List.append_nil] at hk ⊢
      have hc : decide (k - pushed < p.Objects.length) = true := by
        rw [decide_eq_true_iff]; exact hk
      simp [walkLoop, hp, pushLoop_some, hc]
  | step m p rest hp htr _ ih =>
    intro fuel pushed k hf hk
    cases fuel with
    | zero => simp at hf
    | succ fuel =>
      rw [allObjects_cons] at hk ⊢
      rw [List.length_append] at hk
      by_cases hcase : k - pushed < p.Objects.length
      · have hc : decide (k - pushed < p.Objects.length) = true := by
          rw [decide_eq_true_iff]; exact hcase
        rw [List.take_append_of_le_length (le_of_lt hcase)]
        simp [walkLoop, hp, pushLoop_some, hc]
      · have hc : decide (k - pushed < p.Objects.length) = false := by
          rw [decide_eq_false_iff_not]; exact hcase
        have hlen : p.Objects.length ≤ k - pushed := by omega
        have hrest : rest.length ≤ fuel := by simp at hf; omega
        have hmin : min p.Objects.length (k - pushed) = p.Objects.length := by omega
        have hk2 : k - (pushed + p.Objects.length) < (allObjects rest).length := by omega
        have ih2 := ih fuel (pushed + p.Objects.length) k hrest hk2
        have heq : k - pushed - p.Objects.length = k - (pushed + p.Objects.length) := by
          omega
        rw [List.take_append_eq_append_take, List.take_of_length_le hlen, heq]
        simp [walkLoop, hp, pushLoop_some, hc, hmin, htr, ih2, hlen]

/-! ### Claim theorems C1–C4 -/

/-- C1: the decorated `Walk` first consults the inner layer's native
walk; the fallback paginated engine is started iff that call failed with
`NotImplemented` (and then `nil` is reported to the caller); any other
native error is returned unchanged; on native success nothing further is
done. -/
theorem gatewayLocker_walk_dispatch (native : Option GoErr) (lo : Lister)
    (cancel : Option Nat) (fuel : Nat) :
    ((GatewayLockerWalk native lo cancel fuel).2.isSome ↔
        native = some GoErr.notImplemented) ∧
    (native = none → GatewayLockerWalk native lo cancel fuel = (none, none)) ∧
    (native = some GoErr.notImplemented →
      GatewayLockerWalk native lo cancel fuel = (none, some (gatewayWalk lo cancel fuel))) ∧
    (∀ msg, native = some (GoErr.errOther msg) →
      GatewayLockerWalk native lo cancel fuel = (some (GoErr.errOther msg), none)) := by
  rcases native with _ | e
  · simp [GatewayLockerWalk]
  · cases e <;> simp [GatewayLockerWalk]

theorem gatewayLocker_walk_dispatch_witness :
    GatewayLockerWalk (some GoErr.notImplemented) demoLister none 2 =
      (none, some (gatewayWalk demoLister none 2)) ∧
    GatewayLockerWalk (some (GoErr.errOther "boom")) demoLister none 2 =
      (some (GoErr.errOther "boom"), none) :=
  ⟨(gatewayLocker_walk_dispatch (some GoErr.notImplemented) demoLister none 2).2.2.1 rfl,
   (gatewayLocker_walk_dispatch (some (GoErr.errOther "boom")) demoLister none 2).2.2.2
     "boom" rfl⟩

/-- C2: over a backend serving `pages` error-free (driven with empty
initial marker, `maxKeys = 0`, marker advanced to each `NextMarker`,
stopping at `IsTruncated = false`), the uncancelled fallback walk pushes
exactly the pages' objects in page-then-within-page order and then
closes the sink, logging nothing. -/
theorem gatewayWalk_complete_enumeration (lo : Lister) (pages : List ListObjectsInfo)
    (fuel : Nat) (h : ServesPages lo "" pages) (hf : pages.length ≤ fuel) :
    gatewayWalk lo none fuel =
      { sink := (allObjects pages).map SinkEvent.push ++ [SinkEvent.close],
        logged := [] } := by
  simp [gatewayWalk, walkLoop_serves lo h fuel 0 hf]

/-- The two-page demo backend is served as pages
`[demoPage1, demoPage2]`. -/
theorem demoLister_serves : ServesPages demoLister "" [demoPage1, demoPage2] :=
  ServesPages.step "" demoPage1 [demoPage2] rfl rfl
    (ServesPages.last "m1" demoPage2 rfl rfl)

theorem gatewayWalk_complete_enumeration_witness :
    gatewayWalk demoLister none 2 =
      { sink := (allObjects [demoPage1, demoPage2]).map SinkEvent.push ++ [SinkEvent.close],
        logged := [] } :=
  gatewayWalk_complete_enumeration demoLister [demoPage1, demoPage2] 2
    demoLister_serves (by decide)

/-- C3: if the context is cancelled after `k` items have been pushed
(`k` below the backend's total object count), the sink receives exactly
the first `k` objects and nothing after cancellation is observed, the
producer logs no error, and the sink is still closed exactly once. -/
theorem gatewayWalk_cancellation (lo : Lister) (pages : List ListObjectsInfo)
    (k fuel : Nat) (h : ServesPages lo "" pages)
    (hk : k < (allObjects pages).length) (hf : pages.length ≤ fuel) :
    gatewayWalk lo (some k) fuel =
      { sink := ((allObjects pages).take k).map SinkEvent.push ++ [SinkEvent.close],
        logged := [] } := by
  have hc := walkLoop_cancel lo h fuel 0 k hf (by simpa using hk)
  simp at hc
  simp [gatewayWalk, hc]

theorem gatewayWalk_cancellation_witness :
    gatewayWalk demoLister (some 2) 2 =
      { sink := ((allObjects [demoPage1, demoPage2]).take 2).map SinkEvent.push ++
          [SinkEvent.close],
        logged := [] } :=
  gatewayWalk_cancellation demoLister [demoPage1, demoPage2] 2 2
    demoLister_serves (by decide) (by decide)

/-- The erring demo backend serves one truncated page, then fails. -/
theorem demoErrLister_servesErr :
    ServesThenErr demoErrLister "" [demoPage1] (GoErr.errOther "backend down") :=
  ServesThenErr.step "" demoPage1 [] (GoErr.errOther "backend down") rfl rfl
    (ServesThenErr.here "m1" (GoErr.errOther "backend down") rfl)

/-- C4: on every exit path the sink trace is some pushes followed by a
single `close` (so the consumer never sees an error on the channel, only
possibly-truncated items then closure); and when the backend fails
mid-enumeration after serving `pages`, the error is logged while the
sink still carries exactly the objects seen so far followed by
closure. -/
theorem gatewayWalk_sink_closure :
    (∀ (lo : Lister) (cancel : Option Nat) (fuel : Nat),
        (gatewayWalk lo cancel fuel).sink.count SinkEvent.close = 1 ∧
        ∃ os : List ObjectInfo,
          (gatewayWalk lo cancel fuel).sink = os.map SinkEvent.push ++ [SinkEvent.close]) ∧
    (∀ (lo : Lister) (pages : List ListObjectsInfo) (e : GoErr) (fuel : Nat),
        ServesThenErr lo "" pages e → pages.length < fuel →
        gatewayWalk lo none fuel =
          { sink := (allObjects pages).map SinkEvent.push ++ [SinkEvent.close],
            logged := [e] }) := by
  constructor
  · intro lo cancel fuel
    refine ⟨?_, (walkLoop lo cancel fuel "" 0).1, rfl⟩
    simp [gatewayWalk, List.count_append, List.count_eq_zero, List.mem_map]
  · intro lo pages e fuel h hf
    simp [gatewayWalk, walkLoop_errs lo h fuel 0 hf]

theorem gatewayWalk_sink_closure_witness :
    (gatewayWalk demoErrLister none 2).sink.count SinkEvent.close = 1 ∧
    gatewayWalk demoErrLister none 2 =
      { sink := (allObjects [demoPage1]).map SinkEvent.push ++ [SinkEvent.close],
        logged := [GoErr.errOther "backend down"] } :=
  ⟨(gatewayWalk_sink_closure.1 demoErrLister none 2).1,
   gatewayWalk_sink_closure.2 demoErrLister [demoPage1] (GoErr.errOther "backend down") 2
     demoErrLister_servesErr (by decide)⟩

/-! ### Claim theorems C5, C10 -/

/-- C5: the endpoint resolver treats scheme-less input as https and
resolves it secure; an explicit `http` scheme resolves to the URL's
host insecure, `https` secure; any other scheme fails with an error
naming it; a parse failure propagates the parse error. -/
theorem parseGatewayEndpoint_spec (p : URLParser) (arg : String) :
    ((goSplit arg "://").length ≤ 1 →
      ∀ u, p ("https://" ++ arg) = .ok u → u.Scheme = "https" →
        ParseGatewayEndpoint p arg = .ok (u.Host, true)) ∧
    ((goSplit arg "://").length > 1 →
      ∀ u, p arg = .ok u →
        (u.Scheme = "http" → ParseGatewayEndpoint p arg = .ok (u.Host, false)) ∧
        (u.Scheme = "https" → ParseGatewayEndpoint p arg = .ok (u.Host, true)) ∧
        (u.Scheme ≠ "http" → u.Scheme ≠ "https" →
          ParseGatewayEndpoint p arg = .error ("Unrecognized scheme " ++ u.Scheme))) ∧
    (∀ e, p (if (goSplit arg "://").length > 1 then arg else "https://" ++ arg) = .error e →
      ParseGatewayEndpoint p arg = .error e) := by
  refine ⟨?_, ?_, ?_⟩
  · intro hle u hu hs
    have hngt : ¬(goSplit arg "://").length > 1 := by omega
    simp [ParseGatewayEndpoint, hngt, hu, hs]
  · intro hgt u hu
    refine ⟨?_, ?_, ?_⟩
    · intro hs; simp [ParseGatewayEndpoint, hgt, hu, hs]
    · intro hs; simp [ParseGatewayEndpoint, hgt, hu, hs]
    · intro h1 h2; simp [ParseGatewayEndpoint, hgt, hu, h1, h2]
  · intro e he
    by_cases hgt : (goSplit arg "://").length > 1
    · rw [if_pos hgt] at he; simp [ParseGatewayEndpoint, hgt, he]
    · rw [if_neg hgt] at he; simp [ParseGatewayEndpoint, hgt, he]

theorem parseGatewayEndpoint_spec_witness :
    ParseGatewayEndpoint urlParseModel "h1" = .ok ("h1", true) ∧
    ParseGatewayEndpoint urlParseModel "http://h2" = .ok ("h2", false) ∧
    ParseGatewayEndpoint urlParseModel "ftp://h3" =
      .error ("Unrecognized scheme " ++ "ftp") :=
  ⟨(parseGatewayEndpoint_spec urlParseModel "h1").1 (by decide)
      { Scheme := "https", Host := "h1" } rfl rfl,
   ((parseGatewayEndpoint_spec urlParseModel "http://h2").2.1 (by decide)
      { Scheme := "http", Host := "h2" } rfl).1 rfl,
   ((parseGatewayEndpoint_spec urlParseModel "ftp://h3").2.1 (by decide)
      { Scheme := "ftp", Host := "h3" } rfl).2.2 (by decide) (by decide)⟩

/-- C10: the empty endpoint string is not rejected: no scheme separator
occurs, so `https://` is prepended, which parses with an empty host, and
the resolver returns `("", secure = true)` without error. -/
theorem parseGatewayEndpoint_empty (p : URLParser)
    (h : p "https://" = .ok { Scheme := "https", Host := "" }) :
    ParseGatewayEndpoint p "" = .ok ("", true) := by
  have hsplit : (goSplit "" "://").length = 1 := rfl
  have happ : ("https://" ++ "" : String) = "https://" := rfl
  simp [ParseGatewayEndpoint, hsplit, happ, h]

theorem parseGatewayEndpoint_empty_witness :
    ParseGatewayEndpoint urlParseModel "" = .ok ("", true) :=
  parseGatewayEndpoint_empty urlParseModel rfl

/-! ### Claim theorem C6 -/

/-- Valid prefixes of the token list do not change the error produced by
the first unrecognized token. -/
theorem parseGatewaySSEGo_errs (pre : List String) : ∀ v post,
    (∀ w ∈ pre, goToUpper w = "" ∨ goToUpper w = GatewaySSES3 ∨ goToUpper w = GatewaySSEC) →
    goToUpper v ≠ "" → goToUpper v ≠ GatewaySSES3 → goToUpper v ≠ GatewaySSEC →
    ∀ acc, parseGatewaySSEGo (pre ++ v :: post) acc =
      .error ("gateway SSE cannot be (" ++ goToUpper v ++ ") ") := by
  induction pre with
  | nil =>
    intro v post _ h1 h2 h3 acc
    simp [parseGatewaySSEGo, h1, h2, h3]
  | cons w pre ih =>
    intro v post hpre h1 h2 h3 acc
    have hw := hpre w (by simp)
    have ihv := ih v post (fun u hu => hpre u (by simp [hu])) h1 h2 h3
    rcases hw with hw | hw | hw <;>
      simp [parseGatewaySSEGo, hw, ihv, GatewaySSES3, GatewaySSEC]

/-- C6: `parseGatewaySSE` splits on `;` and matches tokens
case-insensitively against the closed set `{S3, SSE-C}`: `"s3;sse-c"`
yields the two-token set, an input whose first unrecognized token is `v`
fails naming `v` upper-cased, and the empty string yields the empty
(nil) result. -/
theorem parseGatewaySSE_spec :
    parseGatewaySSE "s3;sse-c" = .ok ["S3", "SSE-C"] ∧
    parseGatewaySSE "bogus" = .error "gateway SSE cannot be (BOGUS) " ∧
    parseGatewaySSE "" = .ok [] ∧
    (∀ s pre v post, goSplit s ";" = pre ++ v :: post →
      (∀ w ∈ pre,
        goToUpper w = "" ∨ goToUpper w = GatewaySSES3 ∨ goToUpper w = GatewaySSEC) →
      goToUpper v ≠ "" → goToUpper v ≠ GatewaySSES3 → goToUpper v ≠ GatewaySSEC →
      parseGatewaySSE s = .error ("gateway SSE cannot be (" ++ goToUpper v ++ ") ")) := by
  refine ⟨rfl, rfl, rfl, ?_⟩
  intro s pre v post hsplit hpre h1 h2 h3
  rw [parseGatewaySSE, hsplit]
  exact parseGatewaySSEGo_errs pre v post hpre h1 h2 h3 []

theorem parseGatewaySSE_spec_witness :
    parseGatewaySSE "s3;nope" =
      .error ("gateway SSE cannot be (" ++ goToUpper "nope" ++ ") ") :=
  parseGatewaySSE_spec.2.2.2 "s3;nope" ["s3"] "nope" [] rfl (by decide) (by decide)
    (by decide) (by decide)

/-! ### Claim theorems C7, C9 -/

/-- C7: if the backend constructor fails, the already-started HTTP
server is shut down before the fatal exit, the global object layer is
never installed, and no dependent subsystem initialization
(notification, IAM migration/init, cache, DNS federation) is
attempted. -/
theorem startGateway_ctor_failure (env : BootEnv) (e : GoErr)
    (h : env.ctorErr = some e) :
    startGatewayTail env =
      [BootEvent.startHTTP, BootEvent.installHTTPServer,
        BootEvent.shutdownHTTP, BootEvent.fatalExit] ∧
    BootEvent.installObjectLayer ∉ startGatewayTail env ∧
    BootEvent.initNotification ∉ startGatewayTail env ∧
    BootEvent.migrateEncryptedIAM ∉ startGatewayTail env ∧
    BootEvent.initIAMStore ∉ startGatewayTail env ∧
    BootEvent.startAsyncIAMInit ∉ startGatewayTail env ∧
    BootEvent.initDiskCache ∉ startGatewayTail env ∧
    BootEvent.initDNSFederation ∉ startGatewayTail env ∧
    (startGatewayTail env).indexOf BootEvent.shutdownHTTP <
      (startGatewayTail env).indexOf BootEvent.fatalExit := by
  have ht : startGatewayTail env =
      [BootEvent.startHTTP, BootEvent.installHTTPServer,
        BootEvent.shutdownHTTP, BootEvent.fatalExit] := by
    unfold startGatewayTail
    rw [h]
  rw [ht]
  exact ⟨rfl, by decide⟩

theorem startGateway_ctor_failure_witness :
    startGatewayTail demoFailEnv =
      [BootEvent.startHTTP, BootEvent.installHTTPServer,
        BootEvent.shutdownHTTP, BootEvent.fatalExit] :=
  (startGateway_ctor_failure demoFailEnv (GoErr.errOther "ctor failed") rfl).1

/-- C9: with etcd configured, whenever the IAM store init or the
asynchronous IAM init start occurs in the bootstrap trace, the
encrypted-backend migration occurred, completed without fatal error,
strictly before both; IAM steps never precede the migration. -/
theorem startGateway_migration_before_iam (env : BootEnv)
    (hetcd : env.etcdConfigured = true)
    (hiam : BootEvent.initIAMStore ∈ startGatewayTail env ∨
      BootEvent.startAsyncIAMInit ∈ startGatewayTail env) :
    BootEvent.migrateEncryptedIAM ∈ startGatewayTail env ∧
    env.migrateErr = none ∧
    (startGatewayTail env).indexOf BootEvent.migrateEncryptedIAM <
      (startGatewayTail env).indexOf BootEvent.initIAMStore ∧
    (startGatewayTail env).indexOf BootEvent.migrateEncryptedIAM <
      (startGatewayTail env).indexOf BootEvent.startAsyncIAMInit := by
  obtain ⟨ctor, isNAS, nasE, notifE, etcd, migE, cacheB, cacheE, dnsB, dnsE⟩ := env
  simp only at hetcd
  subst hetcd
  rcases ctor with _ | e1 <;> rcases isNAS <;> rcases nasE with _ | e2 <;>
    rcases notifE with _ | e3 <;> rcases migE with _ | e4 <;> rcases cacheB <;>
    rcases cacheE with _ | e5 <;> rcases dnsB <;> rcases dnsE with _ | e6 <;>
    simp_all [startGatewayTail, nasPhase, migratePhase, iamPhase, cachePhase,
      dnsPhase, List.indexOf] <;> decide

theorem startGateway_migration_before_iam_witness :
    BootEvent.migrateEncryptedIAM ∈ startGatewayTail demoEtcdEnv ∧
    demoEtcdEnv.migrateErr = none ∧
    (startGatewayTail demoEtcdEnv).indexOf BootEvent.migrateEncryptedIAM <
      (startGatewayTail demoEtcdEnv).indexOf BootEvent.initIAMStore ∧
    (startGatewayTail demoEtcdEnv).indexOf BootEvent.migrateEncryptedIAM <
      (startGatewayTail demoEtcdEnv).indexOf BootEvent.startAsyncIAMInit :=
  startGateway_migration_before_iam demoEtcdEnv rfl (Or.inl (by decide))

/-! ### Claim C8 -/

/-- Membership in the insertion-sort model is membership in the
input. -/
theorem mem_insertSorted (v x : String) (l : List String) :
    v ∈ insertSorted x l ↔ v = x ∨ v ∈ l := by
  induction l with
  | nil => simp [insertSorted]
  | cons y ys ih =>
    by_cases h : goLtList x.data y.data = true
    · simp [insertSorted, h]
    · simp only [insertSorted, if_neg h, List.mem_cons, ih]
      tauto

theorem mem_sortStrings (v : String) (l : List String) :
    v ∈ sortStrings l ↔ v ∈ l := by
  induction l with
  | nil => simp [sortStrings]
  | cons x xs ih =>
    simp only [sortStrings, List.foldr_cons] at ih ⊢
    rw [mem_insertSorted, ih, List.mem_cons]

/-- Every element of the suggestion fold has the invariant property if
the seed does and every fold input within distance 2 does. -/
theorem findClosest_foldl_mem (command : String) (P : String → Prop) :
    ∀ (l acc : List String),
      (∀ v ∈ acc, P v) → (∀ x ∈ l, dlDist command.data x.data < 2 → P x) →
      ∀ v ∈ l.foldl
        (fun acc value =>
          if sortSearch acc value < acc.length then acc
          else if dlDist command.data value.data < 2 then acc ++ [value] else acc)
        acc, P v := by
  intro l
  induction l with
  | nil => intro acc hacc _ v hv; exact hacc v hv
  | cons x rest ih =>
    intro acc hacc hl v hv
    simp only [List.foldl_cons] at hv
    refine ih _ ?_ (fun y hy => hl y (List.mem_cons_of_mem _ hy)) v hv
    intro w hw
    by_cases h1 : sortSearch acc x < acc.length
    · rw [if_pos h1] at hw; exact hacc w hw
    · rw [if_neg h1] at hw
      by_cases h2 : dlDist command.data x.data < 2
      · rw [if_pos h2] at hw
        rcases List.mem_append.1 hw with hw | hw
        · exact hacc w hw
        · simp only [List.mem_singleton] at hw
          subst hw
          exact hl w (by simp) h2
      · rw [if_neg h2] at hw; exact hacc w hw

/-- C8 counterexample: with registered commands
`azure gcs hdfs nas s3` and typed command `a`, the handler suggests
`azure` (a trie prefix match) although its Damerau-Levenshtein distance
from `a` is `4 > 1`: not every printed suggestion is within edit
distance 1. -/
theorem findClosestCommands_distance_ctrex :
    "azure" ∈ (commandNotFound ["azure", "gcs", "hdfs", "nas", "s3"] "a").1 ∧
    1 < dlDist "a".data "azure".data := by
  decide

/-- C8 amended: every suggestion printed by the command-not-found
handler is a registered command that either has the typed command as a
prefix (a trie prefix match) or lies within Damerau-Levenshtein
distance at most 1 of it; the handler then exits with a non-zero
status. -/
theorem findClosestCommands_amended (cmds : List String) (command : String) :
    (∀ v ∈ (commandNotFound cmds command).1,
      v ∈ cmds ∧ (command.data.isPrefixOf v.data ∨ dlDist command.data v.data < 2)) ∧
    (commandNotFound cmds command).2 ≠ 0 := by
  constructor
  · intro v hv
    refine findClosest_foldl_mem command
      (fun w => w ∈ cmds ∧ (command.data.isPrefixOf w.data ∨ dlDist command.data w.data < 2))
      cmds _ ?_ ?_ v hv
    · intro w hw
      rw [mem_sortStrings] at hw
      have := List.mem_filter.1 hw
      exact ⟨this.1, Or.inl (by simpa using this.2)⟩
    · intro x hx hdl
      exact ⟨hx, Or.inr hdl⟩
  · simp [commandNotFound]

theorem findClosestCommands_amended_witness :
    ("ab" ∈ ["ab"] ∧
      ("ba".data.isPrefixOf "ab".data ∨ dlDist "ba".data "ab".data < 2)) ∧
    (commandNotFound ["ab"] "ba").2 ≠ 0 :=
  ⟨(findClosestCommands_amended ["ab"] "ba").1 "ab" (by decide),
   (findClosestCommands_amended ["ab"] "ba").2⟩

end Ming
